import Mathlib

/-
Verification of the usage-quota gate and tier-resolution logic of the
AI Vision Service (src/api/index.py).

The embedding models the Python source directly:
  * `get_user_tier` (src/api/index.py, lines 69-99): resolves "premium"
    or "free" from a decoded JWT claims mapping.  Python values reachable
    by this function are modelled by `PyVal` (strings, dicts, and an
    integer atom standing for any other JSON-serialisable value).
    Attribute errors raised by calling `.get` or `.lower()` on a value of
    the wrong type are modelled with `Except`.
  * `check_and_increment_usage` (lines 57-67): the quota gate over the
    global `usage_tracker` dict, embedded by explicit state passing.
  * `check_usage` (lines 194-207): the body of the /api/usage handler
    after authentication and tier resolution.
Logging statements are elided (they do not affect results or state).
-/

namespace AIVision

/-- A Python value as reachable by `get_user_tier`: a string, a dict with
string keys, or some other atom (modelled by an integer; any
non-string, non-mapping, JSON-serialisable Python value behaves the same
way in this function: `.get` and `.lower()` raise `AttributeError` on it
and `== "premium"` is `False`). -/
inductive PyVal where
  | str : String → PyVal
  | dict : List (String × PyVal) → PyVal
  | int : Int → PyVal

/-- `d.get(k, default)` on a Python dict (first matching key wins;
Python dict keys are unique, so this agrees with dict semantics). -/
def pyDictGet (d : List (String × PyVal)) (k : String) (dflt : PyVal) : PyVal :=
  match d with
  | [] => dflt
  | p :: rest => if p.1 == k then p.2 else pyDictGet rest k dflt

/-- Python `v == s` for a string literal `s`: string comparison when `v`
is a string, `False` for any other value (never raises). -/
def pyEqStr (v : PyVal) (s : String) : Bool :=
  match v with
  | .str t => t == s
  | _ => false

/-- Whether a Python value is a mapping. -/
def isDict : PyVal → Bool
  | .dict _ => true
  | _ => false

/-- Whether a Python value is a string. -/
def isStr : PyVal → Bool
  | .str _ => true
  | _ => false

/-- `needle` begins `haystack` (on character lists). -/
def leadMatch : List Char → List Char → Bool
  | [], _ => true
  | _ :: _, [] => false
  | a :: as, b :: bs => a == b && leadMatch as bs

/-- `needle` occurs somewhere in `haystack` (on character lists). -/
def subMatch (needle : List Char) : List Char → Bool
  | [] => leadMatch needle []
  | b :: bs => leadMatch needle (b :: bs) || subMatch needle bs

/-- Python `needle in haystack` for strings: substring containment. -/
def strContains (haystack needle : String) : Bool :=
  subMatch needle.data haystack.data

/-- Python `s.lower()`: lower-case every character of the string. -/
def pyLower (s : String) : String :=
  ⟨s.data.map Char.toLower⟩

/-- The only exception the modelled code can raise: `AttributeError`,
from `.get` on a non-mapping or `.lower()` on a non-string. -/
inductive PyErr where
  | attributeError
deriving DecidableEq

/-- src/api/index.py line 51: `PREMIUM_PLAN_KEY = "premium_vision"`. -/
def PREMIUM_PLAN_KEY : String := "premium_vision"

/-- src/api/index.py line 52: `FREE_TIER_LIMIT = 1`. -/
def FREE_TIER_LIMIT : Int := 1

/-- `get_user_tier` (src/api/index.py lines 69-99).

Python:
```
subscription = decoded_token.get("subscription", \x7b\x7d)
plan = subscription.get("plan", "")            # AttributeError if subscription is not a dict
public_metadata = decoded_token.get("public_metadata", \x7b\x7d)
tier = public_metadata.get("tier", "")         # AttributeError if public_metadata is not a dict
if PREMIUM_PLAN_KEY in plan.lower() or tier == "premium":   # AttributeError if plan is not a str
    return "premium"
return "free"
```
(`user_id = decoded_token.get("sub", "")` and the logging calls are elided:
they never raise and do not affect the result.) -/
def get_user_tier (decoded_token : List (String × PyVal)) : Except PyErr String :=
  match pyDictGet decoded_token "subscription" (.dict []) with
  | .dict subFields =>
    let plan := pyDictGet subFields "plan" (.str "")
    match pyDictGet decoded_token "public_metadata" (.dict []) with
    | .dict pmFields =>
      let tier := pyDictGet pmFields "tier" (.str "")
      match plan with
      | .str planStr =>
        if strContains (pyLower planStr) PREMIUM_PLAN_KEY || pyEqStr tier "premium" then
          .ok "premium"
        else
          .ok "free"
      | _ => .error .attributeError
    | _ => .error .attributeError
  | _ => .error .attributeError

/-- The in-memory usage tracker: `usage_tracker: Dict[str, int]`
(src/api/index.py line 55).  Python ints are unbounded and signed, so
counts are modelled as `Int`. -/
abbrev UsageMap := List (String × Int)

/-- `usage_tracker.get(user_id, 0)` (first matching key wins; keys are
unique in a Python dict). -/
def trackerGet (m : UsageMap) (k : String) : Int :=
  match m with
  | [] => 0
  | p :: rest => if p.1 == k then p.2 else trackerGet rest k

/-- `usage_tracker[user_id] = v`: update in place if the key exists,
otherwise append (Python dicts keep insertion order). -/
def trackerSet (m : UsageMap) (k : String) (v : Int) : UsageMap :=
  match m with
  | [] => [(k, v)]
  | p :: rest => if p.1 == k then (k, v) :: rest else p :: trackerSet rest k v

/-- `check_and_increment_usage` (src/api/index.py lines 57-67), with the
global `usage_tracker` passed and returned explicitly. -/
def check_and_increment_usage (m : UsageMap) (user_id tier : String) :
    Bool × UsageMap :=
  if tier == "premium" then
    (true, m)
  else
    let current_usage := trackerGet m user_id
    if current_usage ≥ FREE_TIER_LIMIT then
      (false, m)
    else
      (true, trackerSet m user_id (current_usage + 1))

/-- The `limit` field of the /api/usage response: the string
`"unlimited"` or an integer. -/
inductive Limit where
  | unlimited : Limit
  | count : Int → Limit
deriving DecidableEq

/-- The JSON object returned by the /api/usage handler. -/
structure UsageResponse where
  user_id : String
  tier : String
  analyses_used : Int
  limit : Limit
deriving DecidableEq

/-- The body of the /api/usage handler `check_usage` (src/api/index.py
lines 194-207) after authentication and tier resolution have produced
`user_id` and `tier`:
```
analyses_used = usage_tracker.get(user_id, 0)
limit = "unlimited" if tier == "premium" else FREE_TIER_LIMIT
return \x7b ... \x7d
```
It performs no assignment to `usage_tracker`, so the state it returns is
the state it was given. -/
def check_usage (m : UsageMap) (user_id tier : String) :
    UsageResponse × UsageMap :=
  ({ user_id := user_id
     tier := tier
     analyses_used := trackerGet m user_id
     limit := if tier == "premium" then .unlimited else .count FREE_TIER_LIMIT }, m)

/-- An operation against the usage tracker: a gate call
(`check_and_increment_usage`) or a usage query (`check_usage`). -/
inductive Op where
  | consume (user_id tier : String)
  | usage (user_id tier : String)

/-- The effect of one operation on the usage tracker. -/
def applyOp (m : UsageMap) : Op → UsageMap
  | .consume u tier => (check_and_increment_usage m u tier).2
  | .usage u tier => (check_usage m u tier).2

/-- The tracker state after a sequence of operations. -/
def run (m : UsageMap) (ops : List Op) : UsageMap :=
  ops.foldl applyOp m

/-- Whether an operation is a non-premium gate call for user `u` that
returns `allowed = true` in state `m`. -/
def allowedFor (m : UsageMap) (u : String) : Op → Bool
  | .consume v tier =>
    v == u && !(tier == "premium") && (check_and_increment_usage m v tier).1
  | .usage _ _ => false

/-- The number of operations in `ops` that are non-premium gate calls for
user `u` returning `allowed = true`, evaluated along the run from `m`. -/
def successes (m : UsageMap) (u : String) : List Op → Int
  | [] => 0
  | op :: ops =>
    (if allowedFor m u op then 1 else 0) + successes (applyOp m op) u ops

/-! ### Helper lemmas about the tracker map -/

theorem trackerGet_trackerSet_self (m : UsageMap) (k : String) (v : Int) :
    trackerGet (trackerSet m k v) k = v := by
  induction m with
  | nil => simp [trackerSet, trackerGet]
  | cons p rest ih =>
    by_cases h : p.1 == k
    · simp [trackerSet, trackerGet, h]
    · simp [trackerSet, trackerGet, h, ih]

theorem trackerGet_trackerSet_of_ne (m : UsageMap) (k k' : String) (v : Int)
    (h : k' ≠ k) : trackerGet (trackerSet m k v) k' = trackerGet m k' := by
  induction m with
  | nil =>
    simp only [trackerSet, trackerGet]
    rw [if_neg]
    simp [beq_iff_eq]
    exact fun hk => absurd hk.symm h
  | cons p rest ih =>
    by_cases hp : p.1 == k
    · have hpk : p.1 = k := by simpa [beq_iff_eq] using hp
      simp only [trackerSet, hp, if_pos]
      simp only [trackerGet]
      rw [if_neg, if_neg]
      · rw [hpk]
        simp [beq_iff_eq]
        exact fun hk => absurd hk.symm h
      · simp [beq_iff_eq]
        exact fun hk => absurd hk.symm h
    · simp only [trackerSet, hp, if_neg, Bool.false_eq_true, not_false_iff]
      simp only [trackerGet]
      by_cases hq : p.1 == k'
      · simp [hq]
      · simp [hq, ih]

theorem mem_trackerSet_iff_of_ne (m : UsageMap) (k k' : String) (v c : Int)
    (h : k' ≠ k) : (k', c) ∈ trackerSet m k v ↔ (k', c) ∈ m := by
  induction m with
  | nil =>
    simp only [trackerSet, List.mem_singleton, List.not_mem_nil, iff_false]
    intro he
    exact h (congrArg Prod.fst he)
  | cons p rest ih =>
    by_cases hp : p.1 == k
    · have hpk : p.1 = k := by simpa [beq_iff_eq] using hp
      simp only [trackerSet, hp, if_pos, List.mem_cons]
      constructor
      · rintro (he | hm)
        · exact absurd (congrArg Prod.fst he) h
        · exact Or.inr hm
      · rintro (he | hm)
        · exact absurd ((congrArg Prod.fst he).trans hpk) h
        · exact Or.inr hm
    · simp only [trackerSet, hp, if_neg, Bool.false_eq_true, not_false_iff,
        List.mem_cons, ih]

theorem trackerSet_subset (m : UsageMap) (k : String) (v : Int) :
    ∀ q ∈ trackerSet m k v, q ∈ m ∨ q = (k, v) := by
  induction m with
  | nil => simp [trackerSet]
  | cons p rest ih =>
    intro q hq
    by_cases hp : p.1 == k
    · simp only [trackerSet, hp, if_pos, List.mem_cons] at hq
      rcases hq with hq | hq
      · exact Or.inr hq
      · exact Or.inl (List.mem_cons_of_mem _ hq)
    · simp only [trackerSet, hp, if_neg, Bool.false_eq_true, not_false_iff,
        List.mem_cons] at hq
      rcases hq with hq | hq
      · exact Or.inl (hq ▸ List.mem_cons_self _ _)
      · rcases ih q hq with h | h
        · exact Or.inl (List.mem_cons_of_mem _ h)
        · exact Or.inr h

theorem mem_trackerSet_self (m : UsageMap) (k : String) (v : Int) :
    (k, v) ∈ trackerSet m k v := by
  induction m with
  | nil => simp [trackerSet]
  | cons p rest ih =>
    by_cases hp : p.1 == k
    · simp [trackerSet, hp]
    · simp only [trackerSet, hp, if_neg, Bool.false_eq_true, not_false_iff]
      exact List.mem_cons_of_mem _ ih

theorem trackerSet_keys (m : UsageMap) (k : String) (v : Int) :
    ∀ p ∈ m, ∃ c : Int, (p.1, c) ∈ trackerSet m k v := by
  intro p hp
  by_cases h : p.1 = k
  · exact ⟨v, by rw [h]; exact mem_trackerSet_self m k v⟩
  · exact ⟨p.2, (mem_trackerSet_iff_of_ne m k p.1 v p.2 h).2 hp⟩

theorem trackerGet_nonneg (m : UsageMap) (k : String)
    (hm : ∀ p ∈ m, 0 ≤ p.2) : 0 ≤ trackerGet m k := by
  induction m with
  | nil => simp [trackerGet]
  | cons p rest ih =>
    simp only [trackerGet]
    by_cases hp : p.1 == k
    · simpa [hp] using hm p (List.mem_cons_self _ _)
    · simp only [hp, if_neg, Bool.false_eq_true, not_false_iff]
      exact ih fun q hq => hm q (List.mem_cons_of_mem _ hq)

theorem trackerGet_eq_zero_of_not_mem (m : UsageMap) (k : String)
    (h : ∀ c : Int, (k, c) ∉ m) : trackerGet m k = 0 := by
  induction m with
  | nil => simp [trackerGet]
  | cons p rest ih =>
    simp only [trackerGet]
    by_cases hp : p.1 == k
    · have hpk : p.1 = k := by simpa [beq_iff_eq] using hp
      exact absurd (show (k, p.2) ∈ p :: rest by
        rw [← hpk]; exact List.mem_cons_self _ _) (h p.2)
    · simp only [hp, if_neg, Bool.false_eq_true, not_false_iff]
      exact ih fun c hc => h c (List.mem_cons_of_mem _ hc)

/-! ### Helper lemmas about the gate and operation runs -/

theorem consume_premium_eq (m : UsageMap) (u : String) :
    check_and_increment_usage m u "premium" = (true, m) := by
  simp [check_and_increment_usage]

theorem consume_of_ne_premium (m : UsageMap) (u tier : String)
    (h : tier ≠ "premium") :
    check_and_increment_usage m u tier =
      (if trackerGet m u ≥ FREE_TIER_LIMIT then (false, m)
       else (true, trackerSet m u (trackerGet m u + 1))) := by
  simp [check_and_increment_usage, beq_iff_eq, h]

theorem consume_false_of_at_limit (m : UsageMap) (u tier : String)
    (hl : FREE_TIER_LIMIT ≤ trackerGet m u) (h : tier ≠ "premium") :
    (check_and_increment_usage m u tier).1 = false := by
  rw [consume_of_ne_premium m u tier h, if_pos hl]

theorem run_nil (m : UsageMap) : run m [] = m := rfl

theorem run_cons (m : UsageMap) (op : Op) (ops : List Op) :
    run m (op :: ops) = run (applyOp m op) ops := rfl

theorem trackerGet_applyOp (m : UsageMap) (u : String) (op : Op) :
    trackerGet (applyOp m op) u =
      trackerGet m u + (if allowedFor m u op then 1 else 0) := by
  cases op with
  | usage v tier => simp [applyOp, check_usage, allowedFor]
  | consume v tier =>
    by_cases hp : tier = "premium"
    · subst hp
      simp [applyOp, consume_premium_eq, allowedFor]
    · rw [show applyOp m (Op.consume v tier) =
          (check_and_increment_usage m v tier).2 from rfl,
        consume_of_ne_premium m v tier hp]
      by_cases hl : trackerGet m v ≥ FREE_TIER_LIMIT
      · simp only [if_pos hl, allowedFor, consume_false_of_at_limit m v tier hl hp]
        simp
      · simp only [if_neg hl]
        have hfst : (check_and_increment_usage m v tier).1 = true := by
          rw [consume_of_ne_premium m v tier hp, if_neg hl]
        by_cases hv : v = u
        · subst hv
          simp [allowedFor, beq_iff_eq, hp, hfst, trackerGet_trackerSet_self]
        · rw [trackerGet_trackerSet_of_ne m v u _ fun he => hv he.symm]
          simp [allowedFor, beq_iff_eq, hv]

theorem trackerGet_run (m : UsageMap) (u : String) (ops : List Op) :
    trackerGet (run m ops) u = trackerGet m u + successes m u ops := by
  induction ops generalizing m with
  | nil => simp [run_nil, successes]
  | cons op ops ih =>
    rw [run_cons, ih, successes, trackerGet_applyOp]
    ring

theorem successes_nonneg (m : UsageMap) (u : String) (ops : List Op) :
    0 ≤ successes m u ops := by
  induction ops generalizing m with
  | nil => simp [successes]
  | cons op ops ih =>
    rw [successes]
    have := ih (applyOp m op)
    split <;> omega

theorem allowedFor_false_of_at_limit (m : UsageMap) (u : String) (op : Op)
    (hl : FREE_TIER_LIMIT ≤ trackerGet m u) : allowedFor m u op = false := by
  cases op with
  | usage v tier => rfl
  | consume v tier =>
    by_cases hv : v = u
    · subst hv
      by_cases hp : tier = "premium"
      · simp [allowedFor, beq_iff_eq, hp]
      · simp [allowedFor, consume_false_of_at_limit m v tier hl hp]
    · simp [allowedFor, beq_iff_eq, hv]

theorem trackerGet_applyOp_at_limit (m : UsageMap) (u : String) (op : Op)
    (hl : trackerGet m u = FREE_TIER_LIMIT) :
    trackerGet (applyOp m op) u = FREE_TIER_LIMIT := by
  rw [trackerGet_applyOp, allowedFor_false_of_at_limit m u op (le_of_eq hl.symm)]
  simpa using hl

theorem trackerGet_run_at_limit (m : UsageMap) (u : String) (ops : List Op)
    (hl : trackerGet m u = FREE_TIER_LIMIT) :
    trackerGet (run m ops) u = FREE_TIER_LIMIT := by
  induction ops generalizing m with
  | nil => simpa [run_nil] using hl
  | cons op ops ih =>
    rw [run_cons]
    exact ih _ (trackerGet_applyOp_at_limit m u op hl)

theorem trackerGet_applyOp_le_limit (m : UsageMap) (u : String) (op : Op)
    (hl : trackerGet m u ≤ FREE_TIER_LIMIT) :
    trackerGet (applyOp m op) u ≤ FREE_TIER_LIMIT := by
  rcases lt_or_eq_of_le hl with h | h
  · rw [trackerGet_applyOp]
    have h1 : trackerGet m u ≤ FREE_TIER_LIMIT - 1 := by omega
    split <;> omega
  · rw [trackerGet_applyOp_at_limit m u op h]

theorem trackerGet_run_le_limit (m : UsageMap) (u : String) (ops : List Op)
    (hl : trackerGet m u ≤ FREE_TIER_LIMIT) :
    trackerGet (run m ops) u ≤ FREE_TIER_LIMIT := by
  induction ops generalizing m with
  | nil => simpa [run_nil] using hl
  | cons op ops ih =>
    rw [run_cons]
    exact ih _ (trackerGet_applyOp_le_limit m u op hl)

theorem applyOp_nonneg (m : UsageMap) (op : Op) (hm : ∀ p ∈ m, 0 ≤ p.2) :
    ∀ p ∈ applyOp m op, 0 ≤ p.2 := by
  cases op with
  | usage v tier => exact hm
  | consume v tier =>
    by_cases hp : tier = "premium"
    · subst hp
      simpa [applyOp, consume_premium_eq] using hm
    · rw [show applyOp m (Op.consume v tier) =
          (check_and_increment_usage m v tier).2 from rfl,
        consume_of_ne_premium m v tier hp]
      by_cases hl : trackerGet m v ≥ FREE_TIER_LIMIT
      · simpa [if_pos hl] using hm
      · simp only [if_neg hl]
        intro p hp2
        rcases trackerSet_subset m v (trackerGet m v + 1) p hp2 with h | h
        · exact hm p h
        · rw [h]
          have := trackerGet_nonneg m v hm
          simpa using by omega

theorem run_nonneg (m : UsageMap) (ops : List Op) (hm : ∀ p ∈ m, 0 ≤ p.2) :
    ∀ p ∈ run m ops, 0 ≤ p.2 := by
  induction ops generalizing m with
  | nil => simpa [run_nil] using hm
  | cons op ops ih =>
    rw [run_cons]
    exact ih _ (applyOp_nonneg m op hm)

theorem applyOp_keys (m : UsageMap) (op : Op) :
    ∀ p ∈ m, ∃ c : Int, (p.1, c) ∈ applyOp m op := by
  cases op with
  | usage v tier => exact fun p hp => ⟨p.2, hp⟩
  | consume v tier =>
    by_cases hp : tier = "premium"
    · subst hp
      simp only [applyOp, consume_premium_eq]
      exact fun p hp => ⟨p.2, hp⟩
    · rw [show applyOp m (Op.consume v tier) =
          (check_and_increment_usage m v tier).2 from rfl,
        consume_of_ne_premium m v tier hp]
      by_cases hl : trackerGet m v ≥ FREE_TIER_LIMIT
      · simp only [if_pos hl]
        exact fun p hp => ⟨p.2, hp⟩
      · simp only [if_neg hl]
        exact trackerSet_keys m v (trackerGet m v + 1)

theorem run_keys (m : UsageMap) (ops : List Op) :
    ∀ p ∈ m, ∃ c : Int, (p.1, c) ∈ run m ops := by
  induction ops generalizing m with
  | nil => exact fun p hp => ⟨p.2, hp⟩
  | cons op ops ih =>
    rw [run_cons]
    intro p hp
    rcases applyOp_keys m op p hp with ⟨c, hc⟩
    rcases ih (applyOp m op) (p.1, c) hc with ⟨d, hd⟩
    exact ⟨d, hd⟩

/-! ### Helper lemmas about tier resolution -/

/-- Whether `get_user_tier` can evaluate its claim lookups without a
Python `AttributeError`: `subscription` and `public_metadata`, when
present, are mappings, and `subscription.plan`, when present, is a
string. -/
def claimsWellTyped (decoded_token : List (String × PyVal)) : Bool :=
  match pyDictGet decoded_token "subscription" (.dict []) with
  | .dict subFields =>
    isDict (pyDictGet decoded_token "public_metadata" (.dict [])) &&
      isStr (pyDictGet subFields "plan" (.str ""))
  | _ => false

theorem get_user_tier_of_wf (claims sf pf : List (String × PyVal)) (ps : String)
    (hsub : pyDictGet claims "subscription" (.dict []) = .dict sf)
    (hpm : pyDictGet claims "public_metadata" (.dict []) = .dict pf)
    (hplan : pyDictGet sf "plan" (.str "") = .str ps) :
    get_user_tier claims =
      .ok (if strContains (pyLower ps) PREMIUM_PLAN_KEY ||
             pyEqStr (pyDictGet pf "tier" (.str "")) "premium"
           then "premium" else "free") := by
  rw [get_user_tier, hsub]
  simp only [hplan, hpm]
  split <;> rfl

/-! ### Claim theorems -/

/-- Claim C1, amended: for every claims mapping whose `subscription` and
`public_metadata` values, when present, are mappings and whose
`subscription.plan`, when present, is a string (absent fields defaulting
to the empty mapping / empty string), `get_user_tier` returns
`"premium"` exactly when the lower-cased plan contains the substring
`"premium_vision"` or `public_metadata.tier` equals exactly the string
`"premium"`, and returns `"free"` in every other case.  (As stated over
all claims mappings the claim fails: a non-mapping `subscription` value
makes the code raise `AttributeError` instead of returning `"free"`; see
the counterexample.) -/
theorem C1_tier_resolution (claims sf pf : List (String × PyVal)) (ps : String)
    (hsub : pyDictGet claims "subscription" (.dict []) = .dict sf)
    (hpm : pyDictGet claims "public_metadata" (.dict []) = .dict pf)
    (hplan : pyDictGet sf "plan" (.str "") = .str ps) :
    get_user_tier claims =
      .ok (if strContains (pyLower ps) PREMIUM_PLAN_KEY ||
             pyEqStr (pyDictGet pf "tier" (.str "")) "premium"
           then "premium" else "free") :=
  get_user_tier_of_wf claims sf pf ps hsub hpm hplan

/-- Witness for C1: the claims mapping
`\x7b"subscription": \x7b"plan": "Premium_Vision_Annual"\x7d\x7d` resolves to premium. -/
theorem C1_tier_resolution_witness :
    get_user_tier
        [("subscription", PyVal.dict [("plan", PyVal.str "Premium_Vision_Annual")])] =
      .ok "premium" := by
  have h := C1_tier_resolution
    [("subscription", PyVal.dict [("plan", PyVal.str "Premium_Vision_Annual")])]
    [("plan", PyVal.str "Premium_Vision_Annual")] [] "Premium_Vision_Annual"
    rfl rfl rfl
  rw [h, if_pos]
  decide

/-- Counterexample to C1 as stated: for the claims mapping
`\x7b"subscription": 5\x7d` (no premium signal anywhere), the code raises
`AttributeError` (`5` has no `.get`) instead of returning `"free"`. -/
theorem C1_tier_resolution_cex :
    get_user_tier [("subscription", PyVal.int 5)] =
        Except.error PyErr.attributeError ∧
    get_user_tier [("subscription", PyVal.int 5)] ≠ Except.ok "free" ∧
    get_user_tier [("subscription", PyVal.int 5)] ≠ Except.ok "premium" := by
  have he : get_user_tier [("subscription", PyVal.int 5)] =
      Except.error PyErr.attributeError := rfl
  refine ⟨he, ?_, ?_⟩ <;> rw [he] <;> intro h <;> exact Except.noConfusion h

/-- Claim C3, amended: `get_user_tier` returns a tier (`"premium"` or
`"free"`) without raising for every claims mapping in which
`subscription` and `public_metadata`, when present, are mappings and
`subscription.plan`, when present, is a string; absent fields default
safely (empty mapping / empty string) and degrade to `"free"`.  (The
unconditional claim fails: a non-mapping value for `subscription` or
`public_metadata`, or a non-string `plan`, makes the code raise
`AttributeError`; see the counterexample.) -/
theorem C3_tier_resolution_total (claims : List (String × PyVal))
    (h : claimsWellTyped claims = true) :
    get_user_tier claims = .ok "premium" ∨ get_user_tier claims = .ok "free" := by
  unfold claimsWellTyped at h
  split at h
  next sf hsub =>
    rw [Bool.and_eq_true] at h
    obtain ⟨hpm, hplan⟩ := h
    cases hpmv : pyDictGet claims "public_metadata" (PyVal.dict []) with
    | dict pf =>
      cases hplanv : pyDictGet sf "plan" (PyVal.str "") with
      | str ps =>
        rw [get_user_tier_of_wf claims sf pf ps hsub hpmv hplanv]
        split
        · exact Or.inl rfl
        · exact Or.inr rfl
      | dict d =>
        rw [hplanv] at hplan
        exact absurd hplan (by simp [isStr])
      | int i =>
        rw [hplanv] at hplan
        exact absurd hplan (by simp [isStr])
    | str s =>
      rw [hpmv] at hpm
      exact absurd hpm (by simp [isDict])
    | int i =>
      rw [hpmv] at hpm
      exact absurd hpm (by simp [isDict])
  next hne => exact absurd h (by simp)

/-- Witness for C3: the empty claims mapping (both structures absent)
resolves without raising. -/
theorem C3_tier_resolution_total_witness :
    get_user_tier [] = .ok "premium" ∨ get_user_tier [] = .ok "free" :=
  C3_tier_resolution_total [] rfl

/-- Counterexample to C3 as stated: for the claims mapping
`\x7b"public_metadata": "oops"\x7d` (a malformed, non-mapping value) the code
raises `AttributeError` (`str` has no `.get`) rather than degrading to
`"free"`. -/
theorem C3_tier_resolution_total_cex :
    get_user_tier [("public_metadata", PyVal.str "oops")] =
      Except.error PyErr.attributeError := rfl

/-- Claim C2: with tier `"free"`, if the stored count for `user_id`
(0 if absent) is at least `FREE_TIER_LIMIT = 1` the gate returns `false`
and leaves the usage map unchanged; otherwise it sets the stored count
to the old count plus 1 and returns `true`. -/
theorem C2_free_tier_gate (m : UsageMap) (u : String) :
    (FREE_TIER_LIMIT ≤ trackerGet m u →
      check_and_increment_usage m u "free" = (false, m)) ∧
    (trackerGet m u < FREE_TIER_LIMIT →
      check_and_increment_usage m u "free" =
        (true, trackerSet m u (trackerGet m u + 1)) ∧
      trackerGet (check_and_increment_usage m u "free").2 u =
        trackerGet m u + 1) := by
  have hne : ("free" : String) ≠ "premium" := by decide
  constructor
  · intro h
    rw [consume_of_ne_premium m u "free" hne, if_pos h]
  · intro h
    have hlt : ¬ trackerGet m u ≥ FREE_TIER_LIMIT := not_le.mpr h
    refine ⟨by rw [consume_of_ne_premium m u "free" hne, if_neg hlt], ?_⟩
    rw [consume_of_ne_premium m u "free" hne, if_neg hlt]
    exact trackerGet_trackerSet_self m u _

/-- Witness for C2: a fresh free user is allowed and charged; a free user
at the limit is refused with no mutation. -/
theorem C2_free_tier_gate_witness :
    check_and_increment_usage [] "u1" "free" = (true, [("u1", 1)]) ∧
    check_and_increment_usage [("u1", (1 : Int))] "u1" "free" =
      (false, [("u1", 1)]) := by
  constructor
  · have h := ((C2_free_tier_gate [] "u1").2 (by decide)).1
    rw [h]
    rfl
  · exact (C2_free_tier_gate [("u1", 1)] "u1").1 (by decide)

/-- Claim C4: with tier `"premium"` the gate returns `true` and leaves
the usage map entirely unchanged, for any number of sequential calls. -/
theorem C4_premium_noop (m : UsageMap) (u : String) (n : ℕ) :
    check_and_increment_usage m u "premium" = (true, m) ∧
    run m (List.replicate n (Op.consume u "premium")) = m := by
  refine ⟨consume_premium_eq m u, ?_⟩
  induction n with
  | zero => rfl
  | succ k ih =>
    rw [List.replicate_succ, run_cons,
      show applyOp m (Op.consume u "premium") = m by
        simp [applyOp, consume_premium_eq]]
    exact ih

/-- Claim C5: the /api/usage handler body reports the current stored
count for `user_id` (0 if the user is absent), with limit
`FREE_TIER_LIMIT = 1` for any non-premium tier and the sentinel
`"unlimited"` for tier `"premium"`, and does not mutate the usage map. -/
theorem C5_usage_query (m : UsageMap) (u tier : String) :
    (check_usage m u tier).1.analyses_used = trackerGet m u ∧
    ((∀ c : Int, (u, c) ∉ m) → (check_usage m u tier).1.analyses_used = 0) ∧
    (check_usage m u tier).1.limit =
      (if tier = "premium" then Limit.unlimited else Limit.count FREE_TIER_LIMIT) ∧
    (check_usage m u tier).2 = m := by
  refine ⟨rfl, ?_, ?_, rfl⟩
  · intro h
    exact trackerGet_eq_zero_of_not_mem m u h
  · by_cases h : tier = "premium" <;> simp [check_usage, beq_iff_eq, h]

/-- Witness for C5: an unseen free-tier user reads `used = 0`,
`limit = 1`, with the map unchanged. -/
theorem C5_usage_query_witness :
    (check_usage [] "u1" "free").1.analyses_used = 0 ∧
    (check_usage [] "u1" "free").1.limit = Limit.count 1 ∧
    (check_usage [] "u1" "free").2 = [] := by
  obtain ⟨h1, h2, h3, h4⟩ := C5_usage_query [] "u1" "free"
  refine ⟨h2 (by simp), ?_, h4⟩
  rw [h3, if_neg (by decide)]
  rfl

/-- Claim C6: once the stored count for a user equals
`FREE_TIER_LIMIT = 1`, it stays there across any sequence of operations
and every subsequent non-premium gate call for that user returns
`false` (the AT_LIMIT state is terminal); and starting from count 0, the
number of allowed non-premium consumptions over any operation sequence
equals the final count and never exceeds 1 (the transition fires at most
once, exactly once when AT_LIMIT is reached). -/
theorem C6_at_limit_terminal (m : UsageMap) (u : String) (ops : List Op) :
    (trackerGet m u = FREE_TIER_LIMIT →
      trackerGet (run m ops) u = FREE_TIER_LIMIT ∧
      ∀ tier, tier ≠ "premium" →
        (check_and_increment_usage (run m ops) u tier).1 = false) ∧
    (trackerGet m u = 0 →
      successes m u ops = trackerGet (run m ops) u ∧
      successes m u ops ≤ 1) := by
  have hF : FREE_TIER_LIMIT = 1 := rfl
  constructor
  · intro h
    have hr := trackerGet_run_at_limit m u ops h
    exact ⟨hr, fun tier ht =>
      consume_false_of_at_limit _ u tier (le_of_eq hr.symm) ht⟩
  · intro h
    have hlaw := trackerGet_run m u ops
    have hle := trackerGet_run_le_limit m u ops (by omega)
    omega

/-- Witness for C6: a user at the limit is refused after a further
operation, and two consecutive fresh-user calls yield at most one
success. -/
theorem C6_at_limit_terminal_witness :
    (check_and_increment_usage
        (run [("u1", (1 : Int))] [Op.consume "u1" "free"]) "u1" "free").1 =
      false ∧
    successes [] "u1" [Op.consume "u1" "free", Op.consume "u1" "free"] ≤ 1 :=
  ⟨((C6_at_limit_terminal [("u1", 1)] "u1" [Op.consume "u1" "free"]).1
      (by decide)).2 "free" (by decide),
   ((C6_at_limit_terminal [] "u1"
      [Op.consume "u1" "free", Op.consume "u1" "free"]).2 (by decide)).2⟩

/-- Claim C7: across any sequence of gate calls and usage queries, a
user's stored count never decreases; starting from a map whose stored
values are non-negative, every stored value stays non-negative; and no
entry is ever deleted. -/
theorem C7_monotone_nonneg (m : UsageMap) (u : String) (ops : List Op)
    (hm : ∀ p ∈ m, 0 ≤ p.2) :
    trackerGet m u ≤ trackerGet (run m ops) u ∧
    (∀ p ∈ run m ops, 0 ≤ p.2) ∧
    (∀ p ∈ m, ∃ c : Int, (p.1, c) ∈ run m ops) := by
  refine ⟨?_, run_nonneg m ops hm, run_keys m ops⟩
  have h1 := trackerGet_run m u ops
  have h2 := successes_nonneg m u ops
  omega

/-- Witness for C7: a concrete run from `[("u1", 0)]` does not decrease
the count of `"u1"`. -/
theorem C7_monotone_nonneg_witness :
    trackerGet [("u1", (0 : Int))] "u1" ≤
      trackerGet (run [("u1", 0)] [Op.consume "u1" "free"]) "u1" :=
  (C7_monotone_nonneg [("u1", 0)] "u1" [Op.consume "u1" "free"] (by simp)).1

/-- Claim C9: for any tier string other than exactly `"premium"`
(including `"Premium"`, `"gold"`, or the empty string), the gate behaves
exactly as it does for `"free"`. -/
theorem C9_non_premium_as_free (m : UsageMap) (u tier : String)
    (h : tier ≠ "premium") :
    check_and_increment_usage m u tier = check_and_increment_usage m u "free" := by
  rw [consume_of_ne_premium m u tier h,
    consume_of_ne_premium m u "free" (by decide)]

/-- Witness for C9: tier `"Premium"` (capitalised) is treated as free. -/
theorem C9_non_premium_as_free_witness :
    check_and_increment_usage [] "u1" "Premium" =
      check_and_increment_usage [] "u1" "free" :=
  C9_non_premium_as_free [] "u1" "Premium" (by decide)

/-- Claim C10: a gate call for `user_id` leaves every other user's entry
untouched: lookups of any other key are unchanged, and the entries for
any other key are exactly those of the original map. -/
theorem C10_gate_frame (m : UsageMap) (u tier v : String) (h : v ≠ u) :
    trackerGet (check_and_increment_usage m u tier).2 v = trackerGet m v ∧
    ∀ c : Int, ((v, c) ∈ (check_and_increment_usage m u tier).2 ↔ (v, c) ∈ m) := by
  by_cases hp : tier = "premium"
  · subst hp
    simp [consume_premium_eq]
  · rw [consume_of_ne_premium m u tier hp]
    by_cases hl : trackerGet m u ≥ FREE_TIER_LIMIT
    · simp [if_pos hl]
    · simp only [if_neg hl]
      exact ⟨trackerGet_trackerSet_of_ne m u v _ h,
        fun c => mem_trackerSet_iff_of_ne m u v _ c h⟩

/-- Witness for C10: consuming for `"u1"` leaves `"v"`'s count at 5. -/
theorem C10_gate_frame_witness :
    trackerGet (check_and_increment_usage [("v", (5 : Int))] "u1" "free").2 "v" =
      trackerGet [("v", (5 : Int))] "v" :=
  (C10_gate_frame [("v", 5)] "u1" "free" "v" (by decide)).1

end AIVision
